import Mathlib

/-!
# lan8720: Ethernet adapter wrapper for the ESP32 (LAN8720 PHY)

A shallow embedding of `src/src/lan8720.cpp` and `src/include/lan8720.hpp`.

* The adapter object is the structure `lan8720` (the five data members of the class).
* The vendor SDK is an environment: `Sdk` holds, for every SDK entry point the wrapper
  calls, the answer the SDK gives for given arguments, and the values of the SDK's
  default-configuration macros.  The general theorems hold for every `Sdk` value;
  `demoSdk` is a concrete one on which they are evaluated.
* `lan8720.setup` and the two constructors return a `SetupRun`: the adapter object as
  the code left it, the SDK calls made (in order, with their results) and whether the
  function returned or the process was aborted by `ESP_ERROR_CHECK`.
* `lan8720.eventHandler` returns a `HandlerRun`: the adapter object after the call, the
  driver and log calls made, and whether the handler faulted on its first statement.
* `ESP_LOGI` arguments are rendered by `printf`, a model of the C conversions `%02x`
  and `%d` that the two format strings of the source use.

Pointers and handles are natural numbers, `0` being `NULL`.
-/

namespace Lan8720

/-! ## SDK types -/

/-- Error code of the SDK (`esp_err_t`). -/
abbrev esp_err_t := Int

/-- Success value of `esp_err_t`. -/
def ESP_OK : esp_err_t := 0

/-- Handle of an installed Ethernet driver (`esp_eth_handle_t`, a pointer). -/
abbrev esp_eth_handle_t := Nat

/-- Null pointer. -/
def NULL : Nat := 0

/-- MAC configuration (`eth_mac_config_t`).  The two SMI pin fields are the ones the
source names; `other` holds the values of the remaining fields of the SDK declaration,
in declaration order. -/
structure eth_mac_config_t where
  smi_mdc_gpio_num : Int
  smi_mdio_gpio_num : Int
  other : List Int
  deriving DecidableEq, Repr

/-- PHY configuration (`eth_phy_config_t`).  `phy_addr` and `reset_gpio_num` are the
fields the source names; `other` holds the remaining fields of the SDK declaration. -/
structure eth_phy_config_t where
  phy_addr : Int
  reset_gpio_num : Int
  other : List Int
  deriving DecidableEq, Repr

/-- Network interface configuration (`esp_netif_config_t`); the wrapper never looks
inside it. -/
structure esp_netif_config_t where
  fields : List Int
  deriving DecidableEq, Repr

/-- Driver configuration (`esp_eth_config_t`): the MAC and PHY driver objects and the
remaining fields of the SDK declaration. -/
structure esp_eth_config_t where
  mac : Nat
  phy : Nat
  other : List Int
  deriving DecidableEq, Repr

/-- Event channel (`esp_event_base_t`).  The handler compares the channel with the two
SDK channels `ETH_EVENT` and `IP_EVENT`; every other channel is `other`. -/
inductive esp_event_base_t where
  | ETH_EVENT
  | IP_EVENT
  | other (base : Nat)
  deriving DecidableEq, Repr

/-- Value of `ETHERNET_EVENT_START` in the SDK enumeration `eth_event_t`. -/
def ETHERNET_EVENT_START : Int := 0
/-- Value of `ETHERNET_EVENT_STOP` in the SDK enumeration `eth_event_t`. -/
def ETHERNET_EVENT_STOP : Int := 1
/-- Value of `ETHERNET_EVENT_CONNECTED` in the SDK enumeration `eth_event_t`. -/
def ETHERNET_EVENT_CONNECTED : Int := 2
/-- Value of `ETHERNET_EVENT_DISCONNECTED` in the SDK enumeration `eth_event_t`. -/
def ETHERNET_EVENT_DISCONNECTED : Int := 3
/-- Value of `IP_EVENT_ETH_GOT_IP` in the SDK enumeration `ip_event_t`. -/
def IP_EVENT_ETH_GOT_IP : Int := 4
/-- Value of `ESP_EVENT_ANY_ID`. -/
def ESP_EVENT_ANY_ID : Int := -1

/-- Commands of `esp_eth_ioctl` (`esp_eth_io_cmd_t`). -/
inductive esp_eth_io_cmd_t where
  | ETH_CMD_G_MAC_ADDR
  | ETH_CMD_S_MAC_ADDR
  | ETH_CMD_G_PHY_ADDR
  | ETH_CMD_S_PHY_ADDR
  | ETH_CMD_G_SPEED
  | ETH_CMD_S_PROMISCUOUS
  deriving DecidableEq, Repr

/-- Callbacks the wrapper hands to the event loop; the class has one. -/
inductive Callback where
  | eventHandler
  deriving DecidableEq, Repr

/-- IPv4 address (`esp_ip4_addr_t`): the 32-bit word `addr`, which the network stack
keeps in network byte order. -/
structure esp_ip4_addr_t where
  addr : Nat
  deriving DecidableEq, Repr

/-- Address triple of an interface (`esp_netif_ip_info_t`). -/
structure esp_netif_ip_info_t where
  ip : esp_ip4_addr_t
  netmask : esp_ip4_addr_t
  gw : esp_ip4_addr_t
  deriving DecidableEq, Repr

/-- The memory `event_data` points to, as seen through the two casts the handler
applies: `handle` is the pointer-sized word read by `*(esp_eth_handle_t *)event_data`,
`ip_info` is the member read through `(ip_event_got_ip_t *)event_data`. -/
structure EventData where
  handle : esp_eth_handle_t
  ip_info : esp_netif_ip_info_t
  deriving DecidableEq, Repr

/-! ## The SDK as an environment -/

/-- Answers of the SDK.  Functions with an output parameter take the old value of the
pointed object and give back the error code and the new value. -/
structure Sdk where
  ETH_MAC_DEFAULT_CONFIG : eth_mac_config_t
  ETH_PHY_DEFAULT_CONFIG : eth_phy_config_t
  ESP_NETIF_DEFAULT_ETH : esp_netif_config_t
  ETH_DEFAULT_CONFIG_other : List Int
  esp_netif_new : esp_netif_config_t → Nat
  esp_eth_set_default_handlers : Nat → esp_err_t
  esp_eth_mac_new_esp32 : eth_mac_config_t → Nat
  esp_eth_phy_new_lan8720 : eth_phy_config_t → Nat
  esp_eth_driver_install : esp_eth_config_t → esp_eth_handle_t → esp_err_t × esp_eth_handle_t
  esp_eth_new_netif_glue : esp_eth_handle_t → Nat
  esp_netif_attach : Nat → Nat → esp_err_t
  esp_event_handler_instance_register :
    esp_event_base_t → Int → Callback → Nat → Nat → esp_err_t × Nat
  esp_eth_start : esp_eth_handle_t → esp_err_t
  esp_eth_ioctl : esp_eth_handle_t → esp_eth_io_cmd_t → List Nat → esp_err_t × List Nat

/-- SDK macro `ETH_DEFAULT_CONFIG(emac, ephy)`: a driver configuration whose `mac` and
`phy` are the arguments, the other fields at their SDK defaults. -/
def ETH_DEFAULT_CONFIG (sdk : Sdk) (emac ephy : Nat) : esp_eth_config_t :=
  { mac := emac, phy := ephy, other := sdk.ETH_DEFAULT_CONFIG_other }

/-- Modelled from the spec: the SDK macro `ESP_ERROR_CHECK` is not part of the
sources; the specification gives it as a fatal assertion that aborts the process when
the checked call does not return `ESP_OK`.  The result is `true` when execution goes
on. -/
def ESP_ERROR_CHECK (rc : esp_err_t) : Bool :=
  decide (rc = ESP_OK)

/-- One SDK call made by `setup`, with its arguments and what it returned. -/
inductive SdkCall where
  | esp_netif_new (config : esp_netif_config_t) (ret : Nat)
  | esp_eth_set_default_handlers (netif : Nat) (ret : esp_err_t)
  | esp_eth_mac_new_esp32 (config : eth_mac_config_t) (ret : Nat)
  | esp_eth_phy_new_lan8720 (config : eth_phy_config_t) (ret : Nat)
  | esp_eth_driver_install (config : esp_eth_config_t) (ret : esp_err_t)
      (out_hdl : esp_eth_handle_t)
  | esp_eth_new_netif_glue (hdl : esp_eth_handle_t) (ret : Nat)
  | esp_netif_attach (netif : Nat) (glue : Nat) (ret : esp_err_t)
  | esp_event_handler_instance_register (base : esp_event_base_t) (id : Int)
      (handler : Callback) (arg : Nat) (ret : esp_err_t) (out_instance : Nat)
  | esp_eth_start (hdl : esp_eth_handle_t) (ret : esp_err_t)
  deriving DecidableEq, Repr

/-- The error code of a call that `setup` wraps in `ESP_ERROR_CHECK`; `none` for the
calls that return a pointer, which `setup` does not check. -/
def SdkCall.checked : SdkCall → Option esp_err_t
  | .esp_netif_new _ _ => none
  | .esp_eth_set_default_handlers _ ret => some ret
  | .esp_eth_mac_new_esp32 _ _ => none
  | .esp_eth_phy_new_lan8720 _ _ => none
  | .esp_eth_driver_install _ ret _ => some ret
  | .esp_eth_new_netif_glue _ _ => none
  | .esp_netif_attach _ _ ret => some ret
  | .esp_event_handler_instance_register _ _ _ _ ret _ => some ret
  | .esp_eth_start _ ret => some ret

/-- A checked call that did not return `ESP_OK`. -/
def SdkCall.failed (c : SdkCall) : Bool :=
  match c.checked with
  | some rc => decide (rc ≠ ESP_OK)
  | none => false

/-! ## The adapter object -/

/-- Data members of class `lan8720` (`lan8720.hpp`). -/
structure lan8720 where
  eth_netif : Nat
  eth_handle : esp_eth_handle_t
  eth_event_instance : Nat
  ip_event_instance : Nat
  verboseLoggin : Bool
  deriving DecidableEq, Repr

/-- The object before a constructor body runs: the default member initialisers of the
header (`eth_netif = NULL`, `eth_handle = NULL`, `verboseLoggin = false`); the two
subscription members have no initialiser, their starting values are arguments. -/
def lan8720.fresh (eth_event_instance ip_event_instance : Nat) : lan8720 :=
  { eth_netif := NULL, eth_handle := NULL,
    eth_event_instance := eth_event_instance,
    ip_event_instance := ip_event_instance,
    verboseLoggin := false }

/-- How a run of `setup` ended. -/
inductive Completion where
  | returned
  | aborted
  deriving DecidableEq, Repr

/-- Result of running `setup` or a constructor. -/
structure SetupRun where
  self : lan8720
  calls : List SdkCall
  completion : Completion
  deriving DecidableEq, Repr

/-- The adapter the caller of a constructor receives: none when the process was
aborted. -/
def SetupRun.adapter (r : SetupRun) : Option lan8720 :=
  match r.completion with
  | .returned => some r.self
  | .aborted => none

/-- Embedding of `lan8720::setup` (lan8720.cpp, lines 61 to 82).  `this_ptr` is the
address of the object, `self` its members on entry.  The local `eth_handle` of line 73
is the variable `eth_handle` below; it is distinct from the member `self.eth_handle`. -/
def lan8720.setup (sdk : Sdk) (this_ptr : Nat) (self : lan8720)
    (mac_config : eth_mac_config_t) (phy_config : eth_phy_config_t) (verbose : Bool) :
    SetupRun :=
  let self := { self with verboseLoggin := verbose }
  let netif_config := sdk.ESP_NETIF_DEFAULT_ETH
  let self := { self with eth_netif := sdk.esp_netif_new netif_config }
  let calls := [SdkCall.esp_netif_new netif_config self.eth_netif]
  let rc := sdk.esp_eth_set_default_handlers self.eth_netif
  let calls := calls ++ [SdkCall.esp_eth_set_default_handlers self.eth_netif rc]
  if ESP_ERROR_CHECK rc = false then ⟨self, calls, .aborted⟩ else
  let mac := sdk.esp_eth_mac_new_esp32 mac_config
  let calls := calls ++ [SdkCall.esp_eth_mac_new_esp32 mac_config mac]
  let phy := sdk.esp_eth_phy_new_lan8720 phy_config
  let calls := calls ++ [SdkCall.esp_eth_phy_new_lan8720 phy_config phy]
  let config := ETH_DEFAULT_CONFIG sdk mac phy
  let eth_handle : esp_eth_handle_t := NULL
  let rc := (sdk.esp_eth_driver_install config eth_handle).1
  let eth_handle := (sdk.esp_eth_driver_install config eth_handle).2
  let calls := calls ++ [SdkCall.esp_eth_driver_install config rc eth_handle]
  if ESP_ERROR_CHECK rc = false then ⟨self, calls, .aborted⟩ else
  let glue := sdk.esp_eth_new_netif_glue eth_handle
  let calls := calls ++ [SdkCall.esp_eth_new_netif_glue eth_handle glue]
  let rc := sdk.esp_netif_attach self.eth_netif glue
  let calls := calls ++ [SdkCall.esp_netif_attach self.eth_netif glue rc]
  if ESP_ERROR_CHECK rc = false then ⟨self, calls, .aborted⟩ else
  let reg := sdk.esp_event_handler_instance_register .ETH_EVENT ESP_EVENT_ANY_ID
    .eventHandler this_ptr self.eth_event_instance
  let self := { self with eth_event_instance := reg.2 }
  let calls := calls ++ [SdkCall.esp_event_handler_instance_register .ETH_EVENT
    ESP_EVENT_ANY_ID .eventHandler this_ptr reg.1 reg.2]
  if ESP_ERROR_CHECK reg.1 = false then ⟨self, calls, .aborted⟩ else
  let reg := sdk.esp_event_handler_instance_register .IP_EVENT IP_EVENT_ETH_GOT_IP
    .eventHandler this_ptr self.ip_event_instance
  let self := { self with ip_event_instance := reg.2 }
  let calls := calls ++ [SdkCall.esp_event_handler_instance_register .IP_EVENT
    IP_EVENT_ETH_GOT_IP .eventHandler this_ptr reg.1 reg.2]
  if ESP_ERROR_CHECK reg.1 = false then ⟨self, calls, .aborted⟩ else
  let rc := sdk.esp_eth_start eth_handle
  let calls := calls ++ [SdkCall.esp_eth_start eth_handle rc]
  if ESP_ERROR_CHECK rc = false then ⟨self, calls, .aborted⟩ else
  ⟨self, calls, .returned⟩

/-- Embedding of the constructor `lan8720::lan8720(int, int, int, int32_t, bool)`
(lan8720.cpp, lines 44 to 54). -/
def lan8720.lan8720_pins (sdk : Sdk) (this_ptr : Nat) (self : lan8720)
    (smi_mdc_gpio_num smi_mdio_gpio_num reset_gpio_num phy_addr : Int) (verbose : Bool) :
    SetupRun :=
  let mac_config := sdk.ETH_MAC_DEFAULT_CONFIG
  let phy_config := sdk.ETH_PHY_DEFAULT_CONFIG
  let mac_config := { mac_config with smi_mdc_gpio_num := smi_mdc_gpio_num }
  let mac_config := { mac_config with smi_mdio_gpio_num := smi_mdio_gpio_num }
  let phy_config := { phy_config with phy_addr := phy_addr }
  let phy_config := { phy_config with reset_gpio_num := reset_gpio_num }
  lan8720.setup sdk this_ptr self mac_config phy_config verbose

/-- Embedding of the constructor
`lan8720::lan8720(eth_mac_config_t, eth_phy_config_t, bool)` (lan8720.cpp, lines 56 to
59). -/
def lan8720.lan8720_configs (sdk : Sdk) (this_ptr : Nat) (self : lan8720)
    (mac_config : eth_mac_config_t) (phy_config : eth_phy_config_t) (verbose : Bool) :
    SetupRun :=
  lan8720.setup sdk this_ptr self mac_config phy_config verbose

/-! ## Rendering of log arguments -/

/-- Digit characters of the C conversions `%d` and `%x` (lower case). -/
def digitChar (d : Nat) : Char :=
  match d with
  | 0 => '0' | 1 => '1' | 2 => '2' | 3 => '3' | 4 => '4' | 5 => '5' | 6 => '6' | 7 => '7'
  | 8 => '8' | 9 => '9' | 10 => 'a' | 11 => 'b' | 12 => 'c' | 13 => 'd' | 14 => 'e'
  | 15 => 'f' | _ => '*'

/-- Digits of `v` in base `base`, most significant first, put in front of `acc`; the
first argument bounds the number of digits. -/
def digitsAux (base : Nat) : Nat → Nat → List Char → List Char
  | 0, _, acc => acc
  | fuel + 1, v, acc =>
    if v / base = 0 then digitChar (v % base) :: acc
    else digitsAux base fuel (v / base) (digitChar (v % base) :: acc)

/-- Shortest numeral of `v` in base `base` (one digit for zero). -/
def digits (base v : Nat) : List Char :=
  digitsAux base (v + 1) v []

/-- Field padding of a C conversion: `sign` and `body` filled up to `width`, with
zeros between sign and digits under the `0` flag, with blanks on the left otherwise. -/
def pad (zero : Bool) (width : Nat) (sign body : List Char) : List Char :=
  if zero then sign ++ List.replicate (width - (sign.length + body.length)) '0' ++ body
  else List.replicate (width - (sign.length + body.length)) ' ' ++ sign ++ body

/-- Where the scan of a format string stands: in plain text, or inside a conversion
specification after `%` with the `0` flag and the width read so far. -/
inductive FmtState where
  | text
  | spec (zero : Bool) (width : Nat) (begun : Bool)

/-- Scan of a C format string, giving the characters written.  Supported are plain
text, `%%` and the conversions `d` (an `int`) and `x` (the argument taken as
`unsigned int`, 32 bits), each with an optional `0` flag and an optional width.  The
arguments are the values after the default argument promotions. -/
def printfAux : List Char → FmtState → List Int → Option (List Char)
  | [], .text, _ => some []
  | [], .spec _ _ _, _ => none
  | c :: cs, .text, args =>
    if c = '%' then printfAux cs (.spec false 0 false) args
    else (printfAux cs .text args).map (fun out => c :: out)
  | c :: cs, .spec zero width begun, args =>
    if c = '%' ∧ begun = false then (printfAux cs .text args).map (fun out => '%' :: out)
    else if c = '0' ∧ begun = false then printfAux cs (.spec true 0 true) args
    else if c.isDigit = true then
      printfAux cs (.spec zero (width * 10 + (c.toNat - 48)) true) args
    else
      match args with
      | [] => none
      | a :: rest =>
        if c = 'x' then
          (printfAux cs .text rest).map
            (fun out => pad zero width [] (digits 16 (a % 4294967296).toNat) ++ out)
        else if c = 'd' then
          (printfAux cs .text rest).map
            (fun out => pad zero width (if a < 0 then ['-'] else []) (digits 10 a.natAbs) ++ out)
        else none

/-- Text a C formatted-output function produces for a format and its arguments; `none`
when the format has a directive outside the supported ones or lacks an argument. -/
def printf (format : String) (args : List Int) : Option String :=
  (printfAux format.data .text args).map String.mk

/-- SDK macro `IPSTR`. -/
def IPSTR : String := "%d.%d.%d.%d"

/-- SDK macro `esp_ip4_addr_get_byte(ipaddr, idx)`: byte `idx` of the memory holding
`addr`.  The ESP32 is little-endian, so byte `idx` is digit `idx` of `addr` in base
256; as `addr` is kept in network byte order, byte 0 is the first octet of the
address. -/
def esp_ip4_addr_get_byte (ipaddr : esp_ip4_addr_t) (idx : Nat) : Nat :=
  (ipaddr.addr / 256 ^ idx) % 256

/-- SDK macro `IP2STR(ipaddr)`: the four bytes of the address, in memory order, each
converted to `uint16_t`. -/
def IP2STR (ipaddr : esp_ip4_addr_t) : List Int :=
  [ Int.ofNat (esp_ip4_addr_get_byte ipaddr 0 % 65536),
    Int.ofNat (esp_ip4_addr_get_byte ipaddr 1 % 65536),
    Int.ofNat (esp_ip4_addr_get_byte ipaddr 2 % 65536),
    Int.ofNat (esp_ip4_addr_get_byte ipaddr 3 % 65536) ]

/-! ## The event callback -/

/-- What the callback does to the outside: a driver query or a call of the SDK log
macro `ESP_LOGI` with its tag, format and arguments. -/
inductive Effect where
  | esp_eth_ioctl (hdl : esp_eth_handle_t) (cmd : esp_eth_io_cmd_t) (ret : esp_err_t)
  | ESP_LOGI (tag : String) (format : String) (args : List Int)
  deriving DecidableEq, Repr

/-- Whether an effect is a log call. -/
def Effect.isLog : Effect → Bool
  | .ESP_LOGI _ _ _ => true
  | .esp_eth_ioctl _ _ _ => false

/-- Message of a log call: its format rendered with its arguments. -/
def Effect.text : Effect → Option String
  | .ESP_LOGI _ format args => printf format args
  | .esp_eth_ioctl _ _ _ => none

/-- Result of one call of the callback: the adapter object after the call, the effects
in order, and whether the call faulted by reading through a null `event_data`. -/
structure HandlerRun where
  Instance : lan8720
  effects : List Effect
  faulted : Bool
  deriving DecidableEq, Repr

/-- The log calls of a run. -/
def HandlerRun.logs (r : HandlerRun) : List Effect :=
  r.effects.filter Effect.isLog

/-- Embedding of the macro `LOGI(v, t, f, ...)` (lan8720.cpp, lines 38 to 42). -/
def LOGI (v : Bool) (t f : String) (args : List Int) : List Effect :=
  if v then [Effect.ESP_LOGI t f args] else []

/-- Element `i` of a `uint8_t` array held as a list. -/
def uint8_at (buf : List Nat) (i : Nat) : Nat :=
  buf.getD i 0 % 256

/-- Embedding of `lan8720::eventHandler` (lan8720.cpp, lines 84 to 132).  `Instance`
is the object `event_handler_arg` points to; `event_data` is `none` for a null
pointer.  Line 87 reads through `event_data` before anything else. -/
def lan8720.eventHandler (sdk : Sdk) (Instance : lan8720) (event_base : esp_event_base_t)
    (event_id : Int) (event_data : Option EventData) : HandlerRun :=
  match event_data with
  | none => ⟨Instance, [], true⟩
  | some data =>
    let eth_handle := data.handle
    if event_base = .ETH_EVENT then
      if event_id = ETHERNET_EVENT_CONNECTED then
        if Instance.verboseLoggin then
          let mac_addr : List Nat := [0, 0, 0, 0, 0, 0]
          let rc := (sdk.esp_eth_ioctl eth_handle .ETH_CMD_G_MAC_ADDR mac_addr).1
          let mac_addr := (sdk.esp_eth_ioctl eth_handle .ETH_CMD_G_MAC_ADDR mac_addr).2
          ⟨Instance,
            [ Effect.esp_eth_ioctl eth_handle .ETH_CMD_G_MAC_ADDR rc,
              Effect.ESP_LOGI "lan8720::eth_event_handler"
                "Ethernet Link Up\nEthernet HW Addr %02x:%02x:%02x:%02x:%02x:%02x"
                [ Int.ofNat (uint8_at mac_addr 0), Int.ofNat (uint8_at mac_addr 1),
                  Int.ofNat (uint8_at mac_addr 2), Int.ofNat (uint8_at mac_addr 3),
                  Int.ofNat (uint8_at mac_addr 4), Int.ofNat (uint8_at mac_addr 5) ] ],
            false⟩
        else ⟨Instance, [], false⟩
      else if event_id = ETHERNET_EVENT_DISCONNECTED then
        ⟨Instance,
          LOGI Instance.verboseLoggin "lan8720::eth_event_handler" "Ethernet Link Down" [],
          false⟩
      else if event_id = ETHERNET_EVENT_START then
        ⟨Instance,
          LOGI Instance.verboseLoggin "lan8720::eth_event_handler" "Ethernet Started" [],
          false⟩
      else if event_id = ETHERNET_EVENT_STOP then
        ⟨Instance,
          LOGI Instance.verboseLoggin "lan8720::eth_event_handler" "Ethernet Stopped" [],
          false⟩
      else ⟨Instance, [], false⟩
    else if event_base = .IP_EVENT then
      if event_id = IP_EVENT_ETH_GOT_IP then
        if Instance.verboseLoggin then
          let ip_info := data.ip_info
          ⟨Instance,
            [ Effect.ESP_LOGI "lan8720::ip_event_handler"
                ("Ethernet IP Address: " ++ IPSTR ++ ", Netmask: " ++ IPSTR ++
                  ", Gateway: " ++ IPSTR)
                (IP2STR ip_info.ip ++ IP2STR ip_info.netmask ++ IP2STR ip_info.gw) ],
            false⟩
        else ⟨Instance, [], false⟩
      else ⟨Instance, [], false⟩
    else ⟨Instance, [], false⟩

/-! ## Specification-side definitions -/

/-- The five (channel, event id) pairs of the dispatch table that log. -/
def recognized (event_base : esp_event_base_t) (event_id : Int) : Bool :=
  match event_base with
  | .ETH_EVENT =>
    decide (event_id = ETHERNET_EVENT_CONNECTED) || decide (event_id = ETHERNET_EVENT_DISCONNECTED)
      || decide (event_id = ETHERNET_EVENT_START) || decide (event_id = ETHERNET_EVENT_STOP)
  | .IP_EVENT => decide (event_id = IP_EVENT_ETH_GOT_IP)
  | .other _ => false

/-- Lower-case hexadecimal digit of a value below sixteen. -/
def lowerHexDigit (d : Nat) : Char :=
  "0123456789abcdef".data.getD d '?'

/-- A byte as two lower-case hexadecimal digits, high digit first. -/
def hex2 (b : Nat) : List Char :=
  [lowerHexDigit (b / 16), lowerHexDigit (b % 16)]

/-- Documented form of a hardware address: six bytes, two hexadecimal digits each,
with a colon between neighbours. -/
def hwAddrText (b0 b1 b2 b3 b4 b5 : Nat) : List Char :=
  hex2 b0 ++ [':'] ++ hex2 b1 ++ [':'] ++ hex2 b2 ++ [':'] ++ hex2 b3 ++ [':'] ++ hex2 b4
    ++ [':'] ++ hex2 b5

/-- Dotted-quad form of an IPv4 address: its four octets in network order, which are
the base-256 digits of `addr` from the lowest up, as decimal numerals with dots
between. -/
def dottedQuad (a : esp_ip4_addr_t) : String :=
  Nat.repr (a.addr % 256) ++ "." ++ Nat.repr (a.addr / 256 % 256) ++ "."
    ++ Nat.repr (a.addr / 65536 % 256) ++ "." ++ Nat.repr (a.addr / 16777216 % 256)

/-- The SDK calls of steps 2 to 8 of the setup contract, in the required order, each
with the answer the SDK gives to it. -/
def plannedCalls (sdk : Sdk) (this_ptr : Nat) (self : lan8720)
    (mac_config : eth_mac_config_t) (phy_config : eth_phy_config_t) : List SdkCall :=
  let netif := sdk.esp_netif_new sdk.ESP_NETIF_DEFAULT_ETH
  let mac := sdk.esp_eth_mac_new_esp32 mac_config
  let phy := sdk.esp_eth_phy_new_lan8720 phy_config
  let config := ETH_DEFAULT_CONFIG sdk mac phy
  let installed := sdk.esp_eth_driver_install config NULL
  let glue := sdk.esp_eth_new_netif_glue installed.2
  let reg_eth := sdk.esp_event_handler_instance_register .ETH_EVENT ESP_EVENT_ANY_ID
    .eventHandler this_ptr self.eth_event_instance
  let reg_ip := sdk.esp_event_handler_instance_register .IP_EVENT IP_EVENT_ETH_GOT_IP
    .eventHandler this_ptr self.ip_event_instance
  [ .esp_netif_new sdk.ESP_NETIF_DEFAULT_ETH netif,
    .esp_eth_set_default_handlers netif (sdk.esp_eth_set_default_handlers netif),
    .esp_eth_mac_new_esp32 mac_config mac,
    .esp_eth_phy_new_lan8720 phy_config phy,
    .esp_eth_driver_install config installed.1 installed.2,
    .esp_eth_new_netif_glue installed.2 glue,
    .esp_netif_attach netif glue (sdk.esp_netif_attach netif glue),
    .esp_event_handler_instance_register .ETH_EVENT ESP_EVENT_ANY_ID .eventHandler this_ptr
      reg_eth.1 reg_eth.2,
    .esp_event_handler_instance_register .IP_EVENT IP_EVENT_ETH_GOT_IP .eventHandler this_ptr
      reg_ip.1 reg_ip.2,
    .esp_eth_start installed.2 (sdk.esp_eth_start installed.2) ]

/-! ## Concrete environments used by the witnesses -/

/-- An SDK in which every call succeeds: interface 1000, MAC 2000, PHY 3000, driver
handle 4000, glue 5000, subscriptions 6000 and 7000, hardware address
00:01:02:03:04:05. -/
def demoSdk : Sdk where
  ETH_MAC_DEFAULT_CONFIG := ⟨23, 18, [100, 4096, 15, 0]⟩
  ETH_PHY_DEFAULT_CONFIG := ⟨1, 5, [100, 4000]⟩
  ESP_NETIF_DEFAULT_ETH := ⟨[1, 2, 3]⟩
  ETH_DEFAULT_CONFIG_other := [2000]
  esp_netif_new := fun _ => 1000
  esp_eth_set_default_handlers := fun _ => 0
  esp_eth_mac_new_esp32 := fun _ => 2000
  esp_eth_phy_new_lan8720 := fun _ => 3000
  esp_eth_driver_install := fun _ _ => (0, 4000)
  esp_eth_new_netif_glue := fun _ => 5000
  esp_netif_attach := fun _ _ => 0
  esp_event_handler_instance_register := fun base _ _ _ _ =>
    (0, if base = .ETH_EVENT then 6000 else 7000)
  esp_eth_start := fun _ => 0
  esp_eth_ioctl := fun _ _ _ => (0, [0, 1, 2, 3, 4, 5])

/-- The same SDK, except that the driver installation fails with `ESP_FAIL`. -/
def demoSdkInstallFails : Sdk :=
  { demoSdk with esp_eth_driver_install := fun _ old => (-1, old) }

/-- The same SDK as `demoSdk`, except that the glue creation of step 6 fails: it
returns `NULL`, while the attach that receives this null glue answers `ESP_OK`. -/
def demoSdkGlueFails : Sdk :=
  { demoSdk with esp_eth_new_netif_glue := fun _ => NULL }

/-- A verbose adapter as `setup` leaves it under `demoSdk`. -/
def demoAdapter : lan8720 :=
  { eth_netif := 1000, eth_handle := NULL, eth_event_instance := 6000,
    ip_event_instance := 7000, verboseLoggin := true }

/-- The same adapter with verbosity off. -/
def demoQuietAdapter : lan8720 :=
  { demoAdapter with verboseLoggin := false }

/-- Event data carrying handle 4000 and the addresses 192.168.1.10, 255.255.255.0,
192.168.1.1. -/
def demoData : EventData :=
  { handle := 4000,
    ip_info := { ip := ⟨0x0A01A8C0⟩, netmask := ⟨0x00FFFFFF⟩, gw := ⟨0x0101A8C0⟩ } }

/-! ## Rendering lemmas -/

theorem unsigned_of_small (n : Nat) (h : n < 4294967296) :
    (Int.ofNat n % 4294967296).toNat = n := by
  have h1 : (Int.ofNat n % 4294967296) = Int.ofNat n := by
    apply Int.emod_eq_of_lt
    · exact Int.ofNat_nonneg n
    · have : (n : Int) < 4294967296 := by exact_mod_cast h
      simpa using this
  rw [h1]; rfl

set_option maxRecDepth 1000000 in
theorem x2_small : ∀ n : Fin 256, pad true 2 [] (digits 16 n.val) = hex2 n.val := by
  decide

set_option maxRecDepth 1000000 in
theorem d_small : ∀ n : Fin 256, pad false 0 [] (digits 10 n.val) = (Nat.repr n.val).data := by
  decide

theorem lowerHexDigit_mem : ∀ d : Fin 16, lowerHexDigit d.val ∈ "0123456789abcdef".data := by
  decide

/-- Conversion %02x of a byte. -/
theorem x2_byte (n : Nat) (h : n < 256) :
    pad true 2 [] (digits 16 (Int.ofNat n % 4294967296).toNat) = hex2 n := by
  rw [unsigned_of_small n (by omega)]
  exact x2_small ⟨n, h⟩

/-- Conversion %d of a byte widened to sixteen bits. -/
theorem d_byte (n : Nat) (h : n < 256) :
    pad false 0 (if Int.ofNat (n % 65536) < 0 then ['-'] else [])
        (digits 10 (Int.ofNat (n % 65536)).natAbs)
      = (Nat.repr n).data := by
  have h1 : n % 65536 = n := Nat.mod_eq_of_lt (by omega)
  have h2 : ¬ (Int.ofNat n < 0) := not_lt.mpr (Int.ofNat_nonneg n)
  rw [h1, if_neg h2]
  exact d_small ⟨n, h⟩

theorem uint8_at_lt (buf : List Nat) (i : Nat) : uint8_at buf i < 256 :=
  Nat.mod_lt _ (by decide)

theorem get_byte_lt (a : esp_ip4_addr_t) (i : Nat) : esp_ip4_addr_get_byte a i < 256 :=
  Nat.mod_lt _ (by decide)

/-- The format of the link-up message applied to six arguments. -/
theorem printf_hw_addr (a0 a1 a2 a3 a4 a5 : Int) :
    printf "Ethernet Link Up\nEthernet HW Addr %02x:%02x:%02x:%02x:%02x:%02x"
        [a0, a1, a2, a3, a4, a5]
      = some (String.mk
          ("Ethernet Link Up\nEthernet HW Addr ".data ++ (pad true 2 [] (digits 16 (a0 % 4294967296).toNat) ++
          (':' :: (pad true 2 [] (digits 16 (a1 % 4294967296).toNat) ++
          (':' :: (pad true 2 [] (digits 16 (a2 % 4294967296).toNat) ++
          (':' :: (pad true 2 [] (digits 16 (a3 % 4294967296).toNat) ++
          (':' :: (pad true 2 [] (digits 16 (a4 % 4294967296).toNat) ++
          (':' :: (pad true 2 [] (digits 16 (a5 % 4294967296).toNat) ++
          []))))))))))))) := by
  rfl

/-- The link-up message for a buffer of bytes. -/
theorem printf_hw_addr_bytes (buf : List Nat) :
    printf "Ethernet Link Up\nEthernet HW Addr %02x:%02x:%02x:%02x:%02x:%02x"
        [ Int.ofNat (uint8_at buf 0), Int.ofNat (uint8_at buf 1), Int.ofNat (uint8_at buf 2),
          Int.ofNat (uint8_at buf 3), Int.ofNat (uint8_at buf 4), Int.ofNat (uint8_at buf 5) ]
      = some (String.mk ("Ethernet Link Up\nEthernet HW Addr ".data
          ++ hwAddrText (uint8_at buf 0) (uint8_at buf 1) (uint8_at buf 2) (uint8_at buf 3)
              (uint8_at buf 4) (uint8_at buf 5))) := by
  rw [printf_hw_addr]
  rw [x2_byte _ (uint8_at_lt buf 0), x2_byte _ (uint8_at_lt buf 1),
    x2_byte _ (uint8_at_lt buf 2), x2_byte _ (uint8_at_lt buf 3),
    x2_byte _ (uint8_at_lt buf 4), x2_byte _ (uint8_at_lt buf 5)]
  simp [hwAddrText]

theorem ip_format_literal :
    "Ethernet IP Address: " ++ IPSTR ++ ", Netmask: " ++ IPSTR ++ ", Gateway: " ++ IPSTR
      = "Ethernet IP Address: %d.%d.%d.%d, Netmask: %d.%d.%d.%d, Gateway: %d.%d.%d.%d" := by
  decide

/-- The format of the got-address message applied to twelve arguments. -/
theorem printf_ip_raw (a0 a1 a2 a3 b0 b1 b2 b3 c0 c1 c2 c3 : Int) :
    printf "Ethernet IP Address: %d.%d.%d.%d, Netmask: %d.%d.%d.%d, Gateway: %d.%d.%d.%d"
        [a0, a1, a2, a3, b0, b1, b2, b3, c0, c1, c2, c3]
      = some (String.mk
          ("Ethernet IP Address: ".data ++ (pad false 0 (if a0 < 0 then ['-'] else []) (digits 10 a0.natAbs) ++
          ('.' :: (pad false 0 (if a1 < 0 then ['-'] else []) (digits 10 a1.natAbs) ++
          ('.' :: (pad false 0 (if a2 < 0 then ['-'] else []) (digits 10 a2.natAbs) ++
          ('.' :: (pad false 0 (if a3 < 0 then ['-'] else []) (digits 10 a3.natAbs) ++
          (", Netmask: ".data ++ (pad false 0 (if b0 < 0 then ['-'] else []) (digits 10 b0.natAbs) ++
          ('.' :: (pad false 0 (if b1 < 0 then ['-'] else []) (digits 10 b1.natAbs) ++
          ('.' :: (pad false 0 (if b2 < 0 then ['-'] else []) (digits 10 b2.natAbs) ++
          ('.' :: (pad false 0 (if b3 < 0 then ['-'] else []) (digits 10 b3.natAbs) ++
          (", Gateway: ".data ++ (pad false 0 (if c0 < 0 then ['-'] else []) (digits 10 c0.natAbs) ++
          ('.' :: (pad false 0 (if c1 < 0 then ['-'] else []) (digits 10 c1.natAbs) ++
          ('.' :: (pad false 0 (if c2 < 0 then ['-'] else []) (digits 10 c2.natAbs) ++
          ('.' :: (pad false 0 (if c3 < 0 then ['-'] else []) (digits 10 c3.natAbs) ++
          []))))))))))))))))))))))))) := by
  rfl

/-- The got-address message for three addresses. -/
theorem printf_ip (ip netmask gw : esp_ip4_addr_t) :
    printf ("Ethernet IP Address: " ++ IPSTR ++ ", Netmask: " ++ IPSTR ++ ", Gateway: " ++ IPSTR)
        (IP2STR ip ++ IP2STR netmask ++ IP2STR gw)
      = some ("Ethernet IP Address: " ++ dottedQuad ip ++ ", Netmask: " ++ dottedQuad netmask
          ++ ", Gateway: " ++ dottedQuad gw) := by
  rw [ip_format_literal]
  unfold IP2STR
  simp only [List.cons_append, List.nil_append]
  rw [printf_ip_raw]
  rw [d_byte _ (get_byte_lt ip 0), d_byte _ (get_byte_lt ip 1), d_byte _ (get_byte_lt ip 2),
    d_byte _ (get_byte_lt ip 3), d_byte _ (get_byte_lt netmask 0),
    d_byte _ (get_byte_lt netmask 1), d_byte _ (get_byte_lt netmask 2),
    d_byte _ (get_byte_lt netmask 3), d_byte _ (get_byte_lt gw 0), d_byte _ (get_byte_lt gw 1),
    d_byte _ (get_byte_lt gw 2), d_byte _ (get_byte_lt gw 3)]
  congr 1
  apply String.ext
  simp [String.data_append, dottedQuad, esp_ip4_addr_get_byte]

/-! ## The event callback -/

/-- A verbose adapter handling Ethernet/Connected with event data present: the driver
query followed by the link-up log call. -/
theorem eventHandler_connected (sdk : Sdk) (Instance : lan8720) (data : EventData)
    (hv : Instance.verboseLoggin = true) :
    lan8720.eventHandler sdk Instance .ETH_EVENT ETHERNET_EVENT_CONNECTED (some data)
      = ⟨Instance,
          [ Effect.esp_eth_ioctl data.handle .ETH_CMD_G_MAC_ADDR
              (sdk.esp_eth_ioctl data.handle .ETH_CMD_G_MAC_ADDR [0, 0, 0, 0, 0, 0]).1,
            Effect.ESP_LOGI "lan8720::eth_event_handler"
              "Ethernet Link Up\nEthernet HW Addr %02x:%02x:%02x:%02x:%02x:%02x"
              [ Int.ofNat (uint8_at
                  (sdk.esp_eth_ioctl data.handle .ETH_CMD_G_MAC_ADDR [0, 0, 0, 0, 0, 0]).2 0),
                Int.ofNat (uint8_at
                  (sdk.esp_eth_ioctl data.handle .ETH_CMD_G_MAC_ADDR [0, 0, 0, 0, 0, 0]).2 1),
                Int.ofNat (uint8_at
                  (sdk.esp_eth_ioctl data.handle .ETH_CMD_G_MAC_ADDR [0, 0, 0, 0, 0, 0]).2 2),
                Int.ofNat (uint8_at
                  (sdk.esp_eth_ioctl data.handle .ETH_CMD_G_MAC_ADDR [0, 0, 0, 0, 0, 0]).2 3),
                Int.ofNat (uint8_at
                  (sdk.esp_eth_ioctl data.handle .ETH_CMD_G_MAC_ADDR [0, 0, 0, 0, 0, 0]).2 4),
                Int.ofNat (uint8_at
                  (sdk.esp_eth_ioctl data.handle .ETH_CMD_G_MAC_ADDR [0, 0, 0, 0, 0, 0]).2 5) ] ],
          false⟩ := by
  unfold lan8720.eventHandler
  simp only [hv, if_true]

/-- A verbose adapter handling IP/Got-address with event data present: one log call. -/
theorem eventHandler_got_ip (sdk : Sdk) (Instance : lan8720) (data : EventData)
    (hv : Instance.verboseLoggin = true) :
    lan8720.eventHandler sdk Instance .IP_EVENT IP_EVENT_ETH_GOT_IP (some data)
      = ⟨Instance,
          [ Effect.ESP_LOGI "lan8720::ip_event_handler"
              ("Ethernet IP Address: " ++ IPSTR ++ ", Netmask: " ++ IPSTR ++ ", Gateway: "
                ++ IPSTR)
              (IP2STR data.ip_info.ip ++ IP2STR data.ip_info.netmask ++ IP2STR data.ip_info.gw) ],
          false⟩ := by
  unfold lan8720.eventHandler
  simp only [hv, if_true]
  rfl

/-- Outside the five recognized pairs the callback has no effect at all. -/
theorem eventHandler_unrecognized (sdk : Sdk) (Instance : lan8720)
    (event_base : esp_event_base_t) (event_id : Int) (event_data : Option EventData)
    (hr : recognized event_base event_id = false) :
    (lan8720.eventHandler sdk Instance event_base event_id event_data).effects = [] := by
  cases event_data with
  | none => rfl
  | some data =>
    cases event_base with
    | ETH_EVENT =>
      simp only [recognized, Bool.or_eq_false_iff, decide_eq_false_iff_not] at hr
      obtain ⟨⟨⟨h1, h2⟩, h3⟩, h4⟩ := hr
      simp [lan8720.eventHandler, h1, h2, h3, h4]
    | IP_EVENT =>
      simp only [recognized, decide_eq_false_iff_not] at hr
      simp [lan8720.eventHandler, hr]
    | other base =>
      simp [lan8720.eventHandler]

/-- Claim C1, as amended: with verbosity true and event data present, each of the five
recognized (channel, id) pairs makes exactly one log call, whose text is the documented
one for the pair; for every other (channel, id) pair, whatever the event data, the
handler makes no log call. -/
theorem eventHandler_verbose_dispatch (sdk : Sdk) (Instance : lan8720) (data : EventData)
    (hv : Instance.verboseLoggin = true) :
    ((lan8720.eventHandler sdk Instance .ETH_EVENT ETHERNET_EVENT_CONNECTED
          (some data)).logs.map Effect.text
        = [some (String.mk ("Ethernet Link Up\nEthernet HW Addr ".data ++
            hwAddrText
              (uint8_at (sdk.esp_eth_ioctl data.handle .ETH_CMD_G_MAC_ADDR [0, 0, 0, 0, 0, 0]).2 0)
              (uint8_at (sdk.esp_eth_ioctl data.handle .ETH_CMD_G_MAC_ADDR [0, 0, 0, 0, 0, 0]).2 1)
              (uint8_at (sdk.esp_eth_ioctl data.handle .ETH_CMD_G_MAC_ADDR [0, 0, 0, 0, 0, 0]).2 2)
              (uint8_at (sdk.esp_eth_ioctl data.handle .ETH_CMD_G_MAC_ADDR [0, 0, 0, 0, 0, 0]).2 3)
              (uint8_at (sdk.esp_eth_ioctl data.handle .ETH_CMD_G_MAC_ADDR [0, 0, 0, 0, 0, 0]).2 4)
              (uint8_at (sdk.esp_eth_ioctl data.handle .ETH_CMD_G_MAC_ADDR [0, 0, 0, 0, 0, 0]).2
                5)))]) ∧
    ((lan8720.eventHandler sdk Instance .ETH_EVENT ETHERNET_EVENT_DISCONNECTED
          (some data)).logs.map Effect.text = [some "Ethernet Link Down"]) ∧
    ((lan8720.eventHandler sdk Instance .ETH_EVENT ETHERNET_EVENT_START
          (some data)).logs.map Effect.text = [some "Ethernet Started"]) ∧
    ((lan8720.eventHandler sdk Instance .ETH_EVENT ETHERNET_EVENT_STOP
          (some data)).logs.map Effect.text = [some "Ethernet Stopped"]) ∧
    ((lan8720.eventHandler sdk Instance .IP_EVENT IP_EVENT_ETH_GOT_IP
          (some data)).logs.map Effect.text
        = [some ("Ethernet IP Address: " ++ dottedQuad data.ip_info.ip ++ ", Netmask: "
            ++ dottedQuad data.ip_info.netmask ++ ", Gateway: "
            ++ dottedQuad data.ip_info.gw)]) ∧
    (∀ (event_base : esp_event_base_t) (event_id : Int) (event_data : Option EventData),
      recognized event_base event_id = false →
      (lan8720.eventHandler sdk Instance event_base event_id event_data).logs = []) := by
  refine ⟨?_, ?_, ?_, ?_, ?_, ?_⟩
  · rw [eventHandler_connected sdk Instance data hv]
    simp only [HandlerRun.logs, List.filter, Effect.isLog, List.map, Effect.text]
    rw [printf_hw_addr_bytes]
  · unfold lan8720.eventHandler
    simp only [hv, LOGI, if_true]
    rfl
  · unfold lan8720.eventHandler
    simp only [hv, LOGI, if_true]
    rfl
  · unfold lan8720.eventHandler
    simp only [hv, LOGI, if_true]
    rfl
  · rw [eventHandler_got_ip sdk Instance data hv]
    simp only [HandlerRun.logs, List.filter, Effect.isLog, List.map, Effect.text]
    rw [printf_ip]
  · intro event_base event_id event_data hr
    simp [HandlerRun.logs, eventHandler_unrecognized sdk Instance event_base event_id event_data hr]

/-- Witness of `eventHandler_verbose_dispatch`: the verbose demo adapter logs
"Ethernet Link Down" once on Ethernet/Disconnected. -/
theorem eventHandler_verbose_dispatch_witness :
    demoAdapter.verboseLoggin = true ∧
    (lan8720.eventHandler demoSdk demoAdapter .ETH_EVENT ETHERNET_EVENT_DISCONNECTED
        (some demoData)).logs.map Effect.text = [some "Ethernet Link Down"] :=
  ⟨rfl, (eventHandler_verbose_dispatch demoSdk demoAdapter demoData rfl).2.1⟩

/-- Claim C1 as stated fails when the event data pointer is null: a verbose adapter
receiving the recognized pair Ethernet/Connected with null event data makes no log call
(the handler faults on its first statement). -/
theorem eventHandler_verbose_null_data_no_log :
    demoAdapter.verboseLoggin = true ∧
    recognized .ETH_EVENT ETHERNET_EVENT_CONNECTED = true ∧
    (lan8720.eventHandler demoSdk demoAdapter .ETH_EVENT ETHERNET_EVENT_CONNECTED none).logs = [] ∧
    (lan8720.eventHandler demoSdk demoAdapter .ETH_EVENT ETHERNET_EVENT_CONNECTED none).logs.length
      ≠ 1 ∧
    (lan8720.eventHandler demoSdk demoAdapter .ETH_EVENT ETHERNET_EVENT_CONNECTED none).faulted
      = true := by
  decide

/-- Claim C2: with verbosity false the handler makes no log call and no driver query,
for every channel, event id and event data (null included). -/
theorem eventHandler_quiet_no_effect (sdk : Sdk) (Instance : lan8720)
    (event_base : esp_event_base_t) (event_id : Int) (event_data : Option EventData)
    (hv : Instance.verboseLoggin = false) :
    (lan8720.eventHandler sdk Instance event_base event_id event_data).effects = [] ∧
    (lan8720.eventHandler sdk Instance event_base event_id event_data).logs = [] := by
  have h : (lan8720.eventHandler sdk Instance event_base event_id event_data).effects = [] := by
    cases event_data with
    | none => rfl
    | some data =>
      unfold lan8720.eventHandler
      simp only [hv, LOGI]
      split_ifs <;> first | rfl | contradiction
  exact ⟨h, by simp [HandlerRun.logs, h]⟩

/-- Witness of `eventHandler_quiet_no_effect`: the quiet demo adapter on
Ethernet/Connected. -/
theorem eventHandler_quiet_no_effect_witness :
    demoQuietAdapter.verboseLoggin = false ∧
    (lan8720.eventHandler demoSdk demoQuietAdapter .ETH_EVENT ETHERNET_EVENT_CONNECTED
        (some demoData)).effects = [] :=
  ⟨rfl, (eventHandler_quiet_no_effect demoSdk demoQuietAdapter .ETH_EVENT
    ETHERNET_EVENT_CONNECTED (some demoData) rfl).1⟩

/-- Claim C7: for every hardware address b0..b5 the driver query returns, an
Ethernet/Connected event handled with verbosity true logs "Ethernet Link Up\nEthernet
HW Addr " followed by the six bytes in order, each as two lower-case hexadecimal digits,
separated by single colons, 17 characters in all. -/
theorem eventHandler_connected_hw_addr (sdk : Sdk) (Instance : lan8720) (data : EventData)
    (b0 b1 b2 b3 b4 b5 : Nat)
    (hv : Instance.verboseLoggin = true)
    (hb : b0 < 256 ∧ b1 < 256 ∧ b2 < 256 ∧ b3 < 256 ∧ b4 < 256 ∧ b5 < 256)
    (hq : (sdk.esp_eth_ioctl data.handle .ETH_CMD_G_MAC_ADDR [0, 0, 0, 0, 0, 0]).2
      = [b0, b1, b2, b3, b4, b5]) :
    (lan8720.eventHandler sdk Instance .ETH_EVENT ETHERNET_EVENT_CONNECTED
        (some data)).logs.map Effect.text
      = [some (String.mk ("Ethernet Link Up\nEthernet HW Addr ".data
          ++ hwAddrText b0 b1 b2 b3 b4 b5))] ∧
    hwAddrText b0 b1 b2 b3 b4 b5
      = [ lowerHexDigit (b0 / 16), lowerHexDigit (b0 % 16), ':',
          lowerHexDigit (b1 / 16), lowerHexDigit (b1 % 16), ':',
          lowerHexDigit (b2 / 16), lowerHexDigit (b2 % 16), ':',
          lowerHexDigit (b3 / 16), lowerHexDigit (b3 % 16), ':',
          lowerHexDigit (b4 / 16), lowerHexDigit (b4 % 16), ':',
          lowerHexDigit (b5 / 16), lowerHexDigit (b5 % 16) ] ∧
    (hwAddrText b0 b1 b2 b3 b4 b5).length = 17 ∧
    (∀ c ∈ hwAddrText b0 b1 b2 b3 b4 b5, c = ':' ∨ c ∈ "0123456789abcdef".data) := by
  obtain ⟨h0, h1, h2, h3, h4, h5⟩ := hb
  have hd : ∀ b, b < 256 → ∀ c ∈ hex2 b, c ∈ "0123456789abcdef".data := by
    intro b hlt c hc
    simp only [hex2, List.mem_cons, List.mem_singleton, List.not_mem_nil, or_false] at hc
    rcases hc with rfl | rfl
    · exact lowerHexDigit_mem ⟨b / 16, by omega⟩
    · exact lowerHexDigit_mem ⟨b % 16, by omega⟩
  refine ⟨?_, rfl, rfl, ?_⟩
  · rw [eventHandler_connected sdk Instance data hv]
    simp only [HandlerRun.logs, List.filter, Effect.isLog, List.map, Effect.text]
    rw [printf_hw_addr_bytes, hq]
    have e : ∀ (i b : Nat), b < 256 → [b0, b1, b2, b3, b4, b5].getD i 0 = b →
        uint8_at [b0, b1, b2, b3, b4, b5] i = b := by
      intro i b hlt hget
      unfold uint8_at
      rw [hget]
      exact Nat.mod_eq_of_lt hlt
    rw [e 0 b0 h0 rfl, e 1 b1 h1 rfl, e 2 b2 h2 rfl, e 3 b3 h3 rfl, e 4 b4 h4 rfl,
      e 5 b5 h5 rfl]
  · intro c hc
    simp only [hwAddrText, List.mem_append, List.mem_singleton] at hc
    rcases hc with ((((((((((hc | hc) | hc) | hc) | hc) | hc) | hc) | hc) | hc) | hc) | hc)
    · exact Or.inr (hd b0 h0 c hc)
    · exact Or.inl hc
    · exact Or.inr (hd b1 h1 c hc)
    · exact Or.inl hc
    · exact Or.inr (hd b2 h2 c hc)
    · exact Or.inl hc
    · exact Or.inr (hd b3 h3 c hc)
    · exact Or.inl hc
    · exact Or.inr (hd b4 h4 c hc)
    · exact Or.inl hc
    · exact Or.inr (hd b5 h5 c hc)

/-- Witness of `eventHandler_connected_hw_addr`: the bytes 0, 1, 2, 3, 4, 5 are logged
as 00:01:02:03:04:05. -/
theorem eventHandler_connected_hw_addr_witness :
    (lan8720.eventHandler demoSdk demoAdapter .ETH_EVENT ETHERNET_EVENT_CONNECTED
        (some demoData)).logs.map Effect.text
      = [some "Ethernet Link Up\nEthernet HW Addr 00:01:02:03:04:05"] :=
  (eventHandler_connected_hw_addr demoSdk demoAdapter demoData 0 1 2 3 4 5 rfl
    (by decide) rfl).1

/-- Claim C8: an IP/Got-address event handled with verbosity true logs
"Ethernet IP Address: <ip>, Netmask: <mask>, Gateway: <gw>", the three values in that
order, each in dotted-quad form: the four bytes in network order as decimal numbers
below 256 separated by dots. -/
theorem eventHandler_got_ip_text (sdk : Sdk) (Instance : lan8720) (data : EventData)
    (hv : Instance.verboseLoggin = true) :
    (lan8720.eventHandler sdk Instance .IP_EVENT IP_EVENT_ETH_GOT_IP
        (some data)).logs.map Effect.text
      = [some ("Ethernet IP Address: " ++ dottedQuad data.ip_info.ip ++ ", Netmask: "
          ++ dottedQuad data.ip_info.netmask ++ ", Gateway: " ++ dottedQuad data.ip_info.gw)] ∧
    (∀ a : esp_ip4_addr_t,
      dottedQuad a = Nat.repr (esp_ip4_addr_get_byte a 0) ++ "."
        ++ Nat.repr (esp_ip4_addr_get_byte a 1) ++ "."
        ++ Nat.repr (esp_ip4_addr_get_byte a 2) ++ "."
        ++ Nat.repr (esp_ip4_addr_get_byte a 3) ∧
      esp_ip4_addr_get_byte a 0 < 256 ∧ esp_ip4_addr_get_byte a 1 < 256 ∧
      esp_ip4_addr_get_byte a 2 < 256 ∧ esp_ip4_addr_get_byte a 3 < 256 ∧
      a.addr % 4294967296 = esp_ip4_addr_get_byte a 0 + 256 * esp_ip4_addr_get_byte a 1
        + 65536 * esp_ip4_addr_get_byte a 2 + 16777216 * esp_ip4_addr_get_byte a 3) := by
  constructor
  · rw [eventHandler_got_ip sdk Instance data hv]
    simp only [HandlerRun.logs, List.filter, Effect.isLog, List.map, Effect.text]
    rw [printf_ip]
  · intro a
    refine ⟨?_, get_byte_lt a 0, get_byte_lt a 1, get_byte_lt a 2, get_byte_lt a 3, ?_⟩
    · simp [dottedQuad, esp_ip4_addr_get_byte]
    · simp only [esp_ip4_addr_get_byte]
      omega

/-- Witness of `eventHandler_got_ip_text`: 192.168.1.10 with netmask 255.255.255.0 and
gateway 192.168.1.1. -/
theorem eventHandler_got_ip_text_witness :
    (lan8720.eventHandler demoSdk demoAdapter .IP_EVENT IP_EVENT_ETH_GOT_IP
        (some demoData)).logs.map Effect.text
      = [some "Ethernet IP Address: 192.168.1.10, Netmask: 255.255.255.0, Gateway: 192.168.1.1"] :=
  (eventHandler_got_ip_text demoSdk demoAdapter demoData rfl).1

/-- Claim C9: the handler leaves every field of the adapter as it was, for every
channel, event id, event data and verbosity, and the only driver operation it issues is
the hardware-address query `ETH_CMD_G_MAC_ADDR`. -/
theorem eventHandler_observer (sdk : Sdk) (Instance : lan8720)
    (event_base : esp_event_base_t) (event_id : Int) (event_data : Option EventData) :
    (lan8720.eventHandler sdk Instance event_base event_id event_data).Instance = Instance ∧
    (∀ e ∈ (lan8720.eventHandler sdk Instance event_base event_id event_data).effects,
      e.isLog = true ∨ ∃ hdl rc, e = Effect.esp_eth_ioctl hdl .ETH_CMD_G_MAC_ADDR rc) := by
  cases event_data with
  | none => exact ⟨rfl, by intro e he; cases he⟩
  | some data =>
    unfold lan8720.eventHandler
    simp only [LOGI]
    split_ifs <;> refine ⟨rfl, ?_⟩ <;> intro e he <;>
      simp only [List.mem_cons, List.mem_singleton, List.not_mem_nil, or_false] at he
    all_goals
      first
      | (rcases he with rfl | rfl
         · exact Or.inr ⟨_, _, rfl⟩
         · exact Or.inl rfl)
      | (subst he; exact Or.inl rfl)

/-- Claim C10: the handler reads through `event_data` before anything else, so it
faults exactly when `event_data` is null, whatever the channel, the event id and the
verbosity; a faulting call has no effect. -/
theorem eventHandler_faults_iff_null (sdk : Sdk) (Instance : lan8720)
    (event_base : esp_event_base_t) (event_id : Int) (event_data : Option EventData) :
    ((lan8720.eventHandler sdk Instance event_base event_id event_data).faulted = true
      ↔ event_data = none) ∧
    (lan8720.eventHandler sdk Instance event_base event_id none).faulted = true ∧
    (lan8720.eventHandler sdk Instance event_base event_id none).effects = [] := by
  refine ⟨?_, rfl, rfl⟩
  cases event_data with
  | none => exact ⟨fun _ => rfl, fun _ => rfl⟩
  | some data =>
    unfold lan8720.eventHandler
    simp only [LOGI]
    split_ifs <;> simp

/-! ## Construction and setup -/

/-- Claim C3: for every input, the piecewise constructor runs `setup` on the SDK
default MAC configuration with only `smi_mdc_gpio_num` and `smi_mdio_gpio_num` replaced
by the clock and data pins, and on the SDK default PHY configuration with only
`phy_addr` and `reset_gpio_num` replaced; every other field is the default one.  With
pins (23, 18, 5) and address 0 the MAC and PHY drivers are created from these. -/
theorem lan8720_pins_configs (sdk : Sdk) (this_ptr : Nat) (self : lan8720)
    (clockPin dataPin resetPin phyAddress : Int) (verbose : Bool) :
    lan8720.lan8720_pins sdk this_ptr self clockPin dataPin resetPin phyAddress verbose
      = lan8720.setup sdk this_ptr self
          { sdk.ETH_MAC_DEFAULT_CONFIG with
            smi_mdc_gpio_num := clockPin, smi_mdio_gpio_num := dataPin }
          { sdk.ETH_PHY_DEFAULT_CONFIG with
            reset_gpio_num := resetPin, phy_addr := phyAddress }
          verbose ∧
    ({ sdk.ETH_MAC_DEFAULT_CONFIG with
        smi_mdc_gpio_num := clockPin, smi_mdio_gpio_num := dataPin } : eth_mac_config_t)
      = { smi_mdc_gpio_num := clockPin, smi_mdio_gpio_num := dataPin,
          other := sdk.ETH_MAC_DEFAULT_CONFIG.other } ∧
    ({ sdk.ETH_PHY_DEFAULT_CONFIG with
        reset_gpio_num := resetPin, phy_addr := phyAddress } : eth_phy_config_t)
      = { phy_addr := phyAddress, reset_gpio_num := resetPin,
          other := sdk.ETH_PHY_DEFAULT_CONFIG.other } ∧
    SdkCall.esp_eth_mac_new_esp32
        { smi_mdc_gpio_num := 23, smi_mdio_gpio_num := 18,
          other := demoSdk.ETH_MAC_DEFAULT_CONFIG.other } 2000
      ∈ (lan8720.lan8720_pins demoSdk 77 (lan8720.fresh 11 12) 23 18 5 0 true).calls ∧
    SdkCall.esp_eth_phy_new_lan8720
        { phy_addr := 0, reset_gpio_num := 5,
          other := demoSdk.ETH_PHY_DEFAULT_CONFIG.other } 3000
      ∈ (lan8720.lan8720_pins demoSdk 77 (lan8720.fresh 11 12) 23 18 5 0 true).calls := by
  exact ⟨rfl, rfl, rfl, by decide, by decide⟩

/-- The member `eth_handle` is never written by `setup`: the handle the driver
installation gives lives in the local variable of the same name. -/
theorem setup_keeps_member_eth_handle (sdk : Sdk) (this_ptr : Nat) (self : lan8720)
    (mac_config : eth_mac_config_t) (phy_config : eth_phy_config_t) (verbose : Bool) :
    (lan8720.setup sdk this_ptr self mac_config phy_config verbose).self.eth_handle
      = self.eth_handle := by
  unfold lan8720.setup
  simp only []
  split_ifs <;> rfl

/-- Claim C4 fails on the code: under `demoSdk` every SDK call succeeds and the driver
installation writes the handle 4000, which is glued and started, and the interface
member is the created interface 1000; yet the adapter that `setup` returns has its
member `eth_handle` still `NULL`. -/
theorem setup_member_eth_handle_stays_null :
    (lan8720.setup demoSdk 77 (lan8720.fresh 11 12) demoSdk.ETH_MAC_DEFAULT_CONFIG
        demoSdk.ETH_PHY_DEFAULT_CONFIG true).completion = .returned ∧
    SdkCall.esp_eth_driver_install (ETH_DEFAULT_CONFIG demoSdk 2000 3000) ESP_OK 4000
      ∈ (lan8720.setup demoSdk 77 (lan8720.fresh 11 12) demoSdk.ETH_MAC_DEFAULT_CONFIG
          demoSdk.ETH_PHY_DEFAULT_CONFIG true).calls ∧
    SdkCall.esp_eth_new_netif_glue 4000 5000
      ∈ (lan8720.setup demoSdk 77 (lan8720.fresh 11 12) demoSdk.ETH_MAC_DEFAULT_CONFIG
          demoSdk.ETH_PHY_DEFAULT_CONFIG true).calls ∧
    SdkCall.esp_eth_start 4000 ESP_OK
      ∈ (lan8720.setup demoSdk 77 (lan8720.fresh 11 12) demoSdk.ETH_MAC_DEFAULT_CONFIG
          demoSdk.ETH_PHY_DEFAULT_CONFIG true).calls ∧
    (lan8720.setup demoSdk 77 (lan8720.fresh 11 12) demoSdk.ETH_MAC_DEFAULT_CONFIG
        demoSdk.ETH_PHY_DEFAULT_CONFIG true).self.eth_netif = 1000 ∧
    (lan8720.setup demoSdk 77 (lan8720.fresh 11 12) demoSdk.ETH_MAC_DEFAULT_CONFIG
        demoSdk.ETH_PHY_DEFAULT_CONFIG true).self.eth_handle = NULL ∧
    (lan8720.setup demoSdk 77 (lan8720.fresh 11 12) demoSdk.ETH_MAC_DEFAULT_CONFIG
        demoSdk.ETH_PHY_DEFAULT_CONFIG true).self.eth_handle ≠ 4000 := by
  decide

/-- Claim C5, as amended: when a call that `setup` checks (install default handlers of
step 3, driver install of step 5, attach of the glue in step 6, either registration of
step 7, driver start of step 8) does not return `ESP_OK`, the run is aborted, no adapter
reaches the caller, and the calls made are exactly the planned calls up to and including
the failing one: no later call is made. -/
theorem setup_aborts_at_failed_call (sdk : Sdk) (this_ptr : Nat) (self : lan8720)
    (mac_config : eth_mac_config_t) (phy_config : eth_phy_config_t) (verbose : Bool)
    (c : SdkCall)
    (hc : c ∈ (lan8720.setup sdk this_ptr self mac_config phy_config verbose).calls)
    (hf : c.failed = true) :
    (lan8720.setup sdk this_ptr self mac_config phy_config verbose).completion = .aborted ∧
    (lan8720.setup sdk this_ptr self mac_config phy_config verbose).adapter = none ∧
    (lan8720.lan8720_configs sdk this_ptr self mac_config phy_config verbose).adapter = none ∧
    ∃ k,
      (plannedCalls sdk this_ptr self mac_config phy_config).get? k = some c ∧
      (lan8720.setup sdk this_ptr self mac_config phy_config verbose).calls
        = (plannedCalls sdk this_ptr self mac_config phy_config).take (k + 1) ∧
      ∀ e ∈ (plannedCalls sdk this_ptr self mac_config phy_config).take k,
        e.failed = false := by
  unfold lan8720.lan8720_configs
  unfold lan8720.setup at hc ⊢
  simp only [] at hc ⊢
  split_ifs at hc ⊢ with h1 h2 h3 h4 h5 h6
  all_goals
    simp only [List.mem_cons, List.mem_append, List.mem_singleton, List.not_mem_nil, or_false,
      false_or, List.nil_append, List.cons_append, List.singleton_append] at hc
  · rcases hc with rfl | rfl
    all_goals
      first
      | (simp [SdkCall.failed, SdkCall.checked] at hf; done)
      | (exfalso; simp_all [SdkCall.failed, SdkCall.checked, ESP_ERROR_CHECK]; done)
      | exact ⟨rfl, rfl, rfl, 1, rfl, rfl, by
          simp_all [plannedCalls, SdkCall.failed, SdkCall.checked, ESP_ERROR_CHECK]⟩
  · rcases hc with rfl | rfl | rfl | rfl | rfl
    all_goals
      first
      | (simp [SdkCall.failed, SdkCall.checked] at hf; done)
      | (exfalso; simp_all [SdkCall.failed, SdkCall.checked, ESP_ERROR_CHECK]; done)
      | exact ⟨rfl, rfl, rfl, 4, rfl, rfl, by
          simp_all [plannedCalls, SdkCall.failed, SdkCall.checked, ESP_ERROR_CHECK]⟩
  · rcases hc with rfl | rfl | rfl | rfl | rfl | rfl | rfl
    all_goals
      first
      | (simp [SdkCall.failed, SdkCall.checked] at hf; done)
      | (exfalso; simp_all [SdkCall.failed, SdkCall.checked, ESP_ERROR_CHECK]; done)
      | exact ⟨rfl, rfl, rfl, 6, rfl, rfl, by
          simp_all [plannedCalls, SdkCall.failed, SdkCall.checked, ESP_ERROR_CHECK]⟩
  · rcases hc with rfl | rfl | rfl | rfl | rfl | rfl | rfl | rfl
    all_goals
      first
      | (simp [SdkCall.failed, SdkCall.checked] at hf; done)
      | (exfalso; simp_all [SdkCall.failed, SdkCall.checked, ESP_ERROR_CHECK]; done)
      | exact ⟨rfl, rfl, rfl, 7, rfl, rfl, by
          simp_all [plannedCalls, SdkCall.failed, SdkCall.checked, ESP_ERROR_CHECK]⟩
  · rcases hc with rfl | rfl | rfl | rfl | rfl | rfl | rfl | rfl | rfl
    all_goals
      first
      | (simp [SdkCall.failed, SdkCall.checked] at hf; done)
      | (exfalso; simp_all [SdkCall.failed, SdkCall.checked, ESP_ERROR_CHECK]; done)
      | exact ⟨rfl, rfl, rfl, 8, rfl, rfl, by
          simp_all [plannedCalls, SdkCall.failed, SdkCall.checked, ESP_ERROR_CHECK]⟩
  · rcases hc with rfl | rfl | rfl | rfl | rfl | rfl | rfl | rfl | rfl | rfl
    all_goals
      first
      | (simp [SdkCall.failed, SdkCall.checked] at hf; done)
      | (exfalso; simp_all [SdkCall.failed, SdkCall.checked, ESP_ERROR_CHECK]; done)
      | exact ⟨rfl, rfl, rfl, 9, rfl, rfl, by
          simp_all [plannedCalls, SdkCall.failed, SdkCall.checked, ESP_ERROR_CHECK]⟩
  · rcases hc with rfl | rfl | rfl | rfl | rfl | rfl | rfl | rfl | rfl | rfl
    all_goals
      first
      | (simp [SdkCall.failed, SdkCall.checked] at hf; done)
      | (exfalso; simp_all [SdkCall.failed, SdkCall.checked, ESP_ERROR_CHECK])

/-- Witness of `setup_aborts_at_failed_call`: when the driver installation fails, the
run is aborted after five calls; no glue is created, nothing is registered, the driver
is not started. -/
theorem setup_aborts_at_failed_call_witness :
    SdkCall.esp_eth_driver_install (ETH_DEFAULT_CONFIG demoSdkInstallFails 2000 3000) (-1) NULL
      ∈ (lan8720.setup demoSdkInstallFails 77 (lan8720.fresh 11 12)
          demoSdkInstallFails.ETH_MAC_DEFAULT_CONFIG demoSdkInstallFails.ETH_PHY_DEFAULT_CONFIG
          true).calls ∧
    (SdkCall.esp_eth_driver_install (ETH_DEFAULT_CONFIG demoSdkInstallFails 2000 3000) (-1)
      NULL).failed = true ∧
    (lan8720.setup demoSdkInstallFails 77 (lan8720.fresh 11 12)
        demoSdkInstallFails.ETH_MAC_DEFAULT_CONFIG demoSdkInstallFails.ETH_PHY_DEFAULT_CONFIG
        true).completion = .aborted ∧
    (lan8720.setup demoSdkInstallFails 77 (lan8720.fresh 11 12)
        demoSdkInstallFails.ETH_MAC_DEFAULT_CONFIG demoSdkInstallFails.ETH_PHY_DEFAULT_CONFIG
        true).calls.length = 5 :=
  ⟨by decide, by decide,
    (setup_aborts_at_failed_call demoSdkInstallFails 77 (lan8720.fresh 11 12)
      demoSdkInstallFails.ETH_MAC_DEFAULT_CONFIG demoSdkInstallFails.ETH_PHY_DEFAULT_CONFIG true
      (SdkCall.esp_eth_driver_install (ETH_DEFAULT_CONFIG demoSdkInstallFails 2000 3000) (-1)
        NULL) (by decide) (by decide)).1,
    by decide⟩

/-- Claim C5 as stated fails for the glue creation of step 6: under `demoSdkGlueFails`
the call `esp_eth_new_netif_glue` fails (it returns `NULL`), yet `setup` is not aborted
at that step: the null glue is attached, both registrations and the driver start are
made, all ten calls happen, and the constructor returns an adapter. -/
theorem setup_continues_after_null_glue :
    SdkCall.esp_eth_new_netif_glue 4000 NULL
      ∈ (lan8720.setup demoSdkGlueFails 77 (lan8720.fresh 11 12)
          demoSdkGlueFails.ETH_MAC_DEFAULT_CONFIG demoSdkGlueFails.ETH_PHY_DEFAULT_CONFIG
          true).calls ∧
    (lan8720.setup demoSdkGlueFails 77 (lan8720.fresh 11 12)
        demoSdkGlueFails.ETH_MAC_DEFAULT_CONFIG demoSdkGlueFails.ETH_PHY_DEFAULT_CONFIG
        true).calls
      = [ SdkCall.esp_netif_new ⟨[1, 2, 3]⟩ 1000,
          SdkCall.esp_eth_set_default_handlers 1000 0,
          SdkCall.esp_eth_mac_new_esp32 ⟨23, 18, [100, 4096, 15, 0]⟩ 2000,
          SdkCall.esp_eth_phy_new_lan8720 ⟨1, 5, [100, 4000]⟩ 3000,
          SdkCall.esp_eth_driver_install ⟨2000, 3000, [2000]⟩ 0 4000,
          SdkCall.esp_eth_new_netif_glue 4000 NULL,
          SdkCall.esp_netif_attach 1000 NULL 0,
          SdkCall.esp_event_handler_instance_register .ETH_EVENT (-1) .eventHandler 77 0 6000,
          SdkCall.esp_event_handler_instance_register .IP_EVENT 4 .eventHandler 77 0 7000,
          SdkCall.esp_eth_start 4000 0 ] ∧
    (lan8720.setup demoSdkGlueFails 77 (lan8720.fresh 11 12)
        demoSdkGlueFails.ETH_MAC_DEFAULT_CONFIG demoSdkGlueFails.ETH_PHY_DEFAULT_CONFIG
        true).completion = .returned ∧
    (lan8720.lan8720_configs demoSdkGlueFails 77 (lan8720.fresh 11 12)
        demoSdkGlueFails.ETH_MAC_DEFAULT_CONFIG demoSdkGlueFails.ETH_PHY_DEFAULT_CONFIG
        true).adapter
      = some { eth_netif := 1000, eth_handle := NULL, eth_event_instance := 6000,
               ip_event_instance := 7000, verboseLoggin := true } ∧
    (lan8720.lan8720_pins demoSdkGlueFails 77 (lan8720.fresh 11 12) 23 18 5 0 true).adapter
      ≠ none := by
  decide

/-- Claim C6: a run of `setup` in which every checked SDK call returns `ESP_OK` makes
exactly the ten planned calls, each once and in order (create interface, install default
handlers, create MAC, create PHY, install driver, create glue, attach it, register on
the Ethernet channel for all ids, register on the IP channel for Got-address, start the
driver), and returns. -/
theorem setup_call_sequence (sdk : Sdk) (this_ptr : Nat) (self : lan8720)
    (mac_config : eth_mac_config_t) (phy_config : eth_phy_config_t) (verbose : Bool)
    (hok : ∀ c ∈ (lan8720.setup sdk this_ptr self mac_config phy_config verbose).calls,
      c.failed = false) :
    (lan8720.setup sdk this_ptr self mac_config phy_config verbose).calls
      = [ SdkCall.esp_netif_new sdk.ESP_NETIF_DEFAULT_ETH
            (sdk.esp_netif_new sdk.ESP_NETIF_DEFAULT_ETH),
          SdkCall.esp_eth_set_default_handlers (sdk.esp_netif_new sdk.ESP_NETIF_DEFAULT_ETH)
            ESP_OK,
          SdkCall.esp_eth_mac_new_esp32 mac_config (sdk.esp_eth_mac_new_esp32 mac_config),
          SdkCall.esp_eth_phy_new_lan8720 phy_config (sdk.esp_eth_phy_new_lan8720 phy_config),
          SdkCall.esp_eth_driver_install
            (ETH_DEFAULT_CONFIG sdk (sdk.esp_eth_mac_new_esp32 mac_config)
              (sdk.esp_eth_phy_new_lan8720 phy_config))
            ESP_OK
            (sdk.esp_eth_driver_install
              (ETH_DEFAULT_CONFIG sdk (sdk.esp_eth_mac_new_esp32 mac_config)
                (sdk.esp_eth_phy_new_lan8720 phy_config)) NULL).2,
          SdkCall.esp_eth_new_netif_glue
            (sdk.esp_eth_driver_install
              (ETH_DEFAULT_CONFIG sdk (sdk.esp_eth_mac_new_esp32 mac_config)
                (sdk.esp_eth_phy_new_lan8720 phy_config)) NULL).2
            (sdk.esp_eth_new_netif_glue
              (sdk.esp_eth_driver_install
                (ETH_DEFAULT_CONFIG sdk (sdk.esp_eth_mac_new_esp32 mac_config)
                  (sdk.esp_eth_phy_new_lan8720 phy_config)) NULL).2),
          SdkCall.esp_netif_attach (sdk.esp_netif_new sdk.ESP_NETIF_DEFAULT_ETH)
            (sdk.esp_eth_new_netif_glue
              (sdk.esp_eth_driver_install
                (ETH_DEFAULT_CONFIG sdk (sdk.esp_eth_mac_new_esp32 mac_config)
                  (sdk.esp_eth_phy_new_lan8720 phy_config)) NULL).2)
            ESP_OK,
          SdkCall.esp_event_handler_instance_register .ETH_EVENT ESP_EVENT_ANY_ID
            .eventHandler this_ptr ESP_OK
            (sdk.esp_event_handler_instance_register .ETH_EVENT ESP_EVENT_ANY_ID
              .eventHandler this_ptr self.eth_event_instance).2,
          SdkCall.esp_event_handler_instance_register .IP_EVENT IP_EVENT_ETH_GOT_IP
            .eventHandler this_ptr ESP_OK
            (sdk.esp_event_handler_instance_register .IP_EVENT IP_EVENT_ETH_GOT_IP
              .eventHandler this_ptr self.ip_event_instance).2,
          SdkCall.esp_eth_start
            (sdk.esp_eth_driver_install
              (ETH_DEFAULT_CONFIG sdk (sdk.esp_eth_mac_new_esp32 mac_config)
                (sdk.esp_eth_phy_new_lan8720 phy_config)) NULL).2
            ESP_OK ] ∧
    (lan8720.setup sdk this_ptr self mac_config phy_config verbose).calls
      = plannedCalls sdk this_ptr self mac_config phy_config ∧
    (lan8720.setup sdk this_ptr self mac_config phy_config verbose).completion = .returned := by
  unfold lan8720.setup at hok ⊢
  simp only [] at hok ⊢
  split_ifs at hok ⊢ with h1 h2 h3 h4 h5 h6
  all_goals
    simp only [List.mem_cons, List.mem_append, List.mem_singleton, List.not_mem_nil, or_false,
      false_or, List.nil_append, List.cons_append, List.singleton_append, forall_eq_or_imp,
      forall_eq, SdkCall.failed, SdkCall.checked] at hok
  all_goals
    first
    | (exfalso; simp_all [ESP_ERROR_CHECK]; done)
    | skip
  simp only [ESP_ERROR_CHECK, Bool.not_eq_false, decide_eq_true_eq] at h1 h2 h3 h4 h5 h6
  refine ⟨?_, rfl, rfl⟩
  simp only [List.nil_append, List.cons_append, List.singleton_append]
  rw [h1, h2, h3, h4, h5, h6]

/-- Witness of `setup_call_sequence`: under `demoSdk` every call succeeds and the run
makes the ten calls on the interface 1000, the MAC 2000, the PHY 3000, the driver
handle 4000 and the glue 5000. -/
theorem setup_call_sequence_witness :
    (lan8720.setup demoSdk 77 (lan8720.fresh 11 12) demoSdk.ETH_MAC_DEFAULT_CONFIG
        demoSdk.ETH_PHY_DEFAULT_CONFIG true).calls
      = [ SdkCall.esp_netif_new ⟨[1, 2, 3]⟩ 1000,
          SdkCall.esp_eth_set_default_handlers 1000 0,
          SdkCall.esp_eth_mac_new_esp32 ⟨23, 18, [100, 4096, 15, 0]⟩ 2000,
          SdkCall.esp_eth_phy_new_lan8720 ⟨1, 5, [100, 4000]⟩ 3000,
          SdkCall.esp_eth_driver_install ⟨2000, 3000, [2000]⟩ 0 4000,
          SdkCall.esp_eth_new_netif_glue 4000 5000,
          SdkCall.esp_netif_attach 1000 5000 0,
          SdkCall.esp_event_handler_instance_register .ETH_EVENT (-1) .eventHandler 77 0 6000,
          SdkCall.esp_event_handler_instance_register .IP_EVENT 4 .eventHandler 77 0 7000,
          SdkCall.esp_eth_start 4000 0 ] :=
  (setup_call_sequence demoSdk 77 (lan8720.fresh 11 12) demoSdk.ETH_MAC_DEFAULT_CONFIG
    demoSdk.ETH_PHY_DEFAULT_CONFIG true (by decide)).1

end Lan8720
